import Mathlib

/-!
Native addon boundary of the map parser: `city64` and `gdeflate`.

A shallow embedding of the two entry points

* `City64`   (`packages/clis/parser/cityhash/cityhash.cc`)
* `GDeflate` (`packages/clis/parser/gdeflate/gdeflate.cc`)

The host runtime is modelled by a small value type (`Napi.Value`), a pending
exception slot and the value handed back by the callback.  The external
libraries (CityHash, libdeflate) are parameters of the development; every call
into them is recorded in a trace so that "the codec is not invoked" and "the
decompressor is released" are statements about that trace.
-/

namespace Napi

/-- Error classes that the addon API can construct. -/
inductive ErrorKind
  | Error
  | TypeError
  | RangeError
  deriving DecidableEq, Repr

/-- A script-level error object: its class and its message. -/
structure JsError where
  kind : ErrorKind
  message : String
  deriving DecidableEq, Repr

/-- The object built by `Napi::TypeError::New(env, message)`. -/
def TypeError.New (message : String) : JsError :=
  { kind := ErrorKind.TypeError, message := message }

/-- An array buffer as seen by native code: `Data()` is the base address of its
backing store and `ByteLength()` its size in bytes.  The bytes themselves live in
the memory of the native world. -/
structure ArrayBuffer where
  Data : Nat
  ByteLength : Nat
  deriving DecidableEq, Repr

/-- Host values.  Text is a sequence of Unicode scalar values; a number carries
an integer payload, which is all the two callbacks ever construct (neither of
them inspects the payload of a number it receives). -/
inductive Value
  | undefined
  | null
  | boolean (b : Bool)
  | number (n : Int)
  | bigint (n : Int)
  | string (s : String)
  | arrayBuffer (b : ArrayBuffer)
  | object (id : Nat)
  deriving DecidableEq, Repr

/-- `Napi::Value::IsString`. -/
def Value.IsString : Value → Bool
  | Value.string _ => true
  | _ => false

/-- `Napi::Value::IsArrayBuffer`. -/
def Value.IsArrayBuffer : Value → Bool
  | Value.arrayBuffer _ => true
  | _ => false

/-- `value.As<Napi::String>()`: an unchecked cast, only meaningful after
`IsString` has answered true. -/
def Value.AsString : Value → String
  | Value.string s => s
  | _ => ""

/-- `value.As<Napi::ArrayBuffer>()`: an unchecked cast, only meaningful after
`IsArrayBuffer` has answered true. -/
def Value.AsArrayBuffer : Value → ArrayBuffer
  | Value.arrayBuffer b => b
  | _ => { Data := 0, ByteLength := 0 }

/-- `Napi::String::Utf8Value`: the UTF-8 bytes of the text, as a `std::string`. -/
def Utf8Value (s : String) : List UInt8 :=
  s.toUTF8.data.toList

/-- `std::string::c_str`: the memory at the returned pointer holds the bytes of
the string followed by a terminating zero byte. -/
def c_str (bytes : List UInt8) : List UInt8 :=
  bytes ++ [0]

/-- `std::string::size`. -/
def size (bytes : List UInt8) : Nat :=
  bytes.length

/-- `Napi::BigInt::New(env, uint64_t)`: the argument is converted to a 64-bit
unsigned integer and turned into an arbitrary-precision integer. -/
def BigInt.New (val : Nat) : Value :=
  Value.bigint (Int.ofNat (val % 2 ^ 64))

/-- `Napi::Number::New(env, double)` applied to a C `int`/`enum`; the conversion
to double is exact on that range. -/
def Number.New (val : Int) : Value :=
  Value.number val

/-- `Napi::Value::From(env, int)`. -/
def Value.From (val : Int) : Value :=
  Number.New val

/-- The arguments of a callback invocation (`Napi::CallbackInfo`). -/
abbrev CallbackInfo := List Value

/-- `info.Length()`. -/
def CallbackInfo.Length (info : CallbackInfo) : Nat :=
  List.length info

/-- `info[i]`; the addon API answers `undefined` past the last argument. -/
def CallbackInfo.get (info : CallbackInfo) (i : Nat) : Value :=
  List.getD info i Value.undefined

end Napi

open Napi

/-! ## cityhash.cc -/

/-- The CityHash library: the 64-bit hash as a function of a byte sequence. -/
structure CityLib where
  hash : List UInt8 → Nat

/-- The external `uint64 CityHash64(const char *buf, size_t len)`: hashes the
`len` bytes found at `buf`; the result is an unsigned 64-bit integer. -/
def CityHash64 (lib : CityLib) (buf : List UInt8) (len : Nat) : Nat :=
  lib.hash (buf.take len) % 2 ^ 64

/-- Calls made into the CityHash library. -/
inductive CityCall
  | CityHash64 (buf : List UInt8) (len : Nat)
  deriving DecidableEq, Repr

/-- What a `City64` invocation leaves behind: the pending exception (if any), the
value returned by the callback, and the library calls it made. -/
structure CityOutcome where
  exception : Option JsError
  value : Value
  trace : List CityCall
  deriving DecidableEq, Repr

/-- The callback `City64` of `cityhash.cc`. -/
def City64 (lib : CityLib) (info : CallbackInfo) : CityOutcome :=
  if info.Length ≠ 1 then
    { exception := some (TypeError.New "Wrong number of arguments"),
      value := Value.null,
      trace := [] }
  else if !(info.get 0).IsString then
    { exception := some (TypeError.New "Wrong arguments"),
      value := Value.null,
      trace := [] }
  else
    let arg0 := (info.get 0).AsString
    let buf := c_str (Utf8Value arg0)
    let len := size (Utf8Value arg0)
    let hash := BigInt.New (CityHash64 lib buf len)
    { exception := none,
      value := hash,
      trace := [CityCall.CityHash64 buf len] }

/-! ## gdeflate.cc -/

/-- The C struct `libdeflate_gdeflate_in_page`: address and size of one
compressed page. -/
structure libdeflate_gdeflate_in_page where
  data : Nat
  nbytes : Nat
  deriving DecidableEq, Repr

/-- The libdeflate entry points used by the addon, acting on a native world `σ`
(heap and memory).  Pointers are addresses, `0` is the null pointer; the codec
status is the integer value of `enum libdeflate_result`. -/
structure Libdeflate (σ : Type) where
  libdeflate_alloc_gdeflate_decompressor : σ → Nat × σ
  libdeflate_gdeflate_decompress :
    Nat → List libdeflate_gdeflate_in_page → Nat → Nat → Nat → Nat → σ → Int × σ
  libdeflate_free_gdeflate_decompressor : Nat → σ → σ

/-- Calls made into libdeflate, with their arguments and results. -/
inductive DeflateCall
  | alloc (ret : Nat)
  | decompress (decompressor : Nat) (in_pages : List libdeflate_gdeflate_in_page)
      (in_npages : Nat) (out : Nat) (out_nbytes_avail : Nat)
      (actual_out_nbytes_ret : Nat) (ret : Int)
  | free (p : Nat)
  deriving DecidableEq, Repr

/-- The native side while a callback runs: the world and the calls made so far. -/
structure Native (σ : Type) where
  world : σ
  trace : List DeflateCall

/-- The null pointer. -/
def nullptr : Nat := 0

/-- Perform `libdeflate_alloc_gdeflate_decompressor()`. -/
def alloc_decompressor {σ : Type} (lib : Libdeflate σ) (n : Native σ) : Nat × Native σ :=
  let r := lib.libdeflate_alloc_gdeflate_decompressor n.world
  (r.1, { world := r.2, trace := n.trace ++ [DeflateCall.alloc r.1] })

/-- Perform `libdeflate_gdeflate_decompress(d, in_pages, in_npages, out,
out_nbytes_avail, actual_out_nbytes_ret)`. -/
def gdeflate_decompress {σ : Type} (lib : Libdeflate σ) (d : Nat)
    (in_pages : List libdeflate_gdeflate_in_page) (in_npages : Nat) (out : Nat)
    (out_nbytes_avail : Nat) (actual_out_nbytes_ret : Nat) (n : Native σ) :
    Int × Native σ :=
  let r := lib.libdeflate_gdeflate_decompress d in_pages in_npages out out_nbytes_avail
    actual_out_nbytes_ret n.world
  (r.1, { world := r.2,
          trace := n.trace ++ [DeflateCall.decompress d in_pages in_npages out
            out_nbytes_avail actual_out_nbytes_ret r.1] })

/-- The specialisation `std::default_delete<libdeflate_gdeflate_decompressor>`:
calls `libdeflate_free_gdeflate_decompressor(p)`. -/
def default_delete {σ : Type} (lib : Libdeflate σ) (p : Nat) (n : Native σ) : Native σ :=
  { world := lib.libdeflate_free_gdeflate_decompressor p n.world,
    trace := n.trace ++ [DeflateCall.free p] }

/-- A `std::unique_ptr<libdeflate_gdeflate_decompressor>`. -/
structure unique_ptr where
  ptr : Nat
  deriving DecidableEq, Repr

/-- `unique_ptr::get`. -/
def unique_ptr.get (u : unique_ptr) : Nat := u.ptr

/-- The destructor of `std::unique_ptr`: the deleter runs only on a non-null
pointer. -/
def unique_ptr.destroy {σ : Type} (lib : Libdeflate σ) (u : unique_ptr) (n : Native σ) :
    Native σ :=
  if u.get ≠ nullptr then default_delete lib u.get n else n

/-- What a `GDeflate` invocation leaves behind: the pending exception (if any),
the value returned by the callback, the libdeflate calls made, and the native
world afterwards. -/
structure DeflateOutcome (σ : Type) where
  exception : Option JsError
  value : Value
  trace : List DeflateCall
  world : σ

/-- The callback `GDeflate` of `gdeflate.cc`. -/
def GDeflate {σ : Type} (lib : Libdeflate σ) (info : CallbackInfo) (w : σ) : DeflateOutcome σ :=
  if info.Length ≠ 2 then
    { exception := some (TypeError.New "Wrong number of arguments"),
      value := Value.null,
      trace := [],
      world := w }
  else if !(info.get 0).IsArrayBuffer || !(info.get 1).IsArrayBuffer then
    { exception := some (TypeError.New "Arguments must be array buffers"),
      value := Value.From (-1),
      trace := [],
      world := w }
  else
    let inputBuffer := (info.get 0).AsArrayBuffer
    let outputBuffer := (info.get 1).AsArrayBuffer
    let compressedPage : libdeflate_gdeflate_in_page :=
      { data := inputBuffer.Data, nbytes := inputBuffer.ByteLength }
    let n0 : Native σ := { world := w, trace := [] }
    let a := alloc_decompressor lib n0
    let decompressor : unique_ptr := { ptr := a.1 }
    let r := gdeflate_decompress lib decompressor.get [compressedPage] 1
      outputBuffer.Data outputBuffer.ByteLength nullptr a.2
    let result := Number.New r.1
    let n3 := decompressor.destroy lib r.2
    { exception := none,
      value := result,
      trace := n3.trace,
      world := n3.world }

/-! ## Vocabulary for the statements -/

/-- Is this call an invocation of the codec? -/
def DeflateCall.isCodec : DeflateCall → Bool
  | DeflateCall.decompress _ _ _ _ _ _ _ => true
  | _ => false

/-- Is this call a release of a decompressor? -/
def DeflateCall.isFree : DeflateCall → Bool
  | DeflateCall.free _ => true
  | _ => false

/-- The decompressors a trace acquired: the non-null results of the allocator. -/
def acquired : List DeflateCall → List Nat
  | [] => []
  | DeflateCall.alloc p :: rest => if p ≠ nullptr then p :: acquired rest else acquired rest
  | _ :: rest => acquired rest

/-- The decompressors a trace released. -/
def released : List DeflateCall → List Nat
  | [] => []
  | DeflateCall.free p :: rest => p :: released rest
  | _ :: rest => released rest

/-- Both checks of `GDeflate` pass: two arguments, both array buffers. -/
def passesValidation (info : CallbackInfo) : Bool :=
  info.length == 2 && (info.get 0).IsArrayBuffer && (info.get 1).IsArrayBuffer

/-- The page descriptor `GDeflate` builds over its first argument. -/
def pageOf (input : ArrayBuffer) : libdeflate_gdeflate_in_page :=
  { data := input.Data, nbytes := input.ByteLength }

/-! ## Concrete library instances for the examples -/

/-- A CityHash stand-in: sums the bytes. -/
def sumCity : CityLib :=
  { hash := fun bytes => (bytes.map UInt8.toNat).sum }

/-- A libdeflate stand-in whose world is the list of live decompressors: the
allocator hands out a fresh non-null handle, the codec reports status `0` when
given a live handle and `1` otherwise, and the release drops the handle. -/
def listDeflate : Libdeflate (List Nat) :=
  { libdeflate_alloc_gdeflate_decompressor := fun live => (live.length + 1, (live.length + 1) :: live),
    libdeflate_gdeflate_decompress := fun d _ _ _ _ _ live => (if d ∈ live then 0 else 1, live),
    libdeflate_free_gdeflate_decompressor := fun p live => live.erase p }

/-- A libdeflate stand-in whose allocator is out of memory: it answers the null
pointer.  The codec reports status `1`. -/
def failingAllocDeflate : Libdeflate Unit :=
  { libdeflate_alloc_gdeflate_decompressor := fun w => (nullptr, w),
    libdeflate_gdeflate_decompress := fun _ _ _ _ _ _ w => (1, w),
    libdeflate_free_gdeflate_decompressor := fun _ w => w }

/-! ## Auxiliary facts -/

theorem CityHash64_c_str (lib : CityLib) (bytes : List UInt8) :
    CityHash64 lib (c_str bytes) (size bytes) = CityHash64 lib bytes bytes.length := by
  simp [CityHash64, c_str, size]

theorem CityHash64_lt (lib : CityLib) (buf : List UInt8) (len : Nat) :
    CityHash64 lib buf len < 2 ^ 64 := by
  unfold CityHash64
  exact Nat.mod_lt _ (by norm_num)

theorem BigInt_New_exact (lib : CityLib) (buf : List UInt8) (len : Nat) :
    BigInt.New (CityHash64 lib buf len) = Value.bigint (Int.ofNat (CityHash64 lib buf len)) := by
  unfold BigInt.New
  rw [Nat.mod_eq_of_lt (CityHash64_lt lib buf len)]

theorem City64_of_string (lib : CityLib) (s : String) :
    City64 lib [Value.string s] =
      { exception := none,
        value := Value.bigint (Int.ofNat (CityHash64 lib (Utf8Value s) (Utf8Value s).length)),
        trace := [CityCall.CityHash64 (c_str (Utf8Value s)) (size (Utf8Value s))] } := by
  simp only [City64, CallbackInfo.Length, CallbackInfo.get, List.length_singleton, ne_eq,
    not_true_eq_false, if_false, List.getD_cons_zero, Value.IsString, Value.AsString,
    Bool.not_true, Bool.false_eq_true]
  rw [BigInt_New_exact, CityHash64_c_str]

theorem Utf8Value_empty : Utf8Value "" = [] := by
  rfl

theorem GDeflate_of_buffers {σ : Type} (lib : Libdeflate σ) (input output : ArrayBuffer)
    (w : σ) :
    GDeflate lib [Value.arrayBuffer input, Value.arrayBuffer output] w =
      (let a := lib.libdeflate_alloc_gdeflate_decompressor w
       let r := lib.libdeflate_gdeflate_decompress a.1 [pageOf input] 1 output.Data
         output.ByteLength nullptr a.2
       let n3 := unique_ptr.destroy lib { ptr := a.1 }
         { world := r.2,
           trace := [DeflateCall.alloc a.1,
             DeflateCall.decompress a.1 [pageOf input] 1 output.Data output.ByteLength
               nullptr r.1] }
       { exception := none, value := Value.number r.1, trace := n3.trace, world := n3.world }) := by
  simp [GDeflate, CallbackInfo.Length, CallbackInfo.get, Value.IsArrayBuffer,
    Value.AsArrayBuffer, alloc_decompressor, gdeflate_decompress, unique_ptr.get, Number.New,
    pageOf]

theorem GDeflate_trace_of_buffers {σ : Type} (lib : Libdeflate σ) (input output : ArrayBuffer)
    (w : σ) :
    (GDeflate lib [Value.arrayBuffer input, Value.arrayBuffer output] w).trace =
      [DeflateCall.alloc (lib.libdeflate_alloc_gdeflate_decompressor w).1,
       DeflateCall.decompress (lib.libdeflate_alloc_gdeflate_decompressor w).1 [pageOf input] 1
         output.Data output.ByteLength nullptr
         (lib.libdeflate_gdeflate_decompress (lib.libdeflate_alloc_gdeflate_decompressor w).1
           [pageOf input] 1 output.Data output.ByteLength nullptr
           (lib.libdeflate_alloc_gdeflate_decompressor w).2).1] ++
      (if (lib.libdeflate_alloc_gdeflate_decompressor w).1 ≠ nullptr then
        [DeflateCall.free (lib.libdeflate_alloc_gdeflate_decompressor w).1] else []) := by
  rw [GDeflate_of_buffers]
  by_cases h : (lib.libdeflate_alloc_gdeflate_decompressor w).1 = nullptr
  · simp [unique_ptr.destroy, unique_ptr.get, h]
  · simp [unique_ptr.destroy, unique_ptr.get, h, default_delete]

theorem GDeflate_wrong_count {σ : Type} (lib : Libdeflate σ) (info : CallbackInfo) (w : σ)
    (h : info.length ≠ 2) :
    GDeflate lib info w =
      { exception := some (TypeError.New "Wrong number of arguments"),
        value := Value.null, trace := [], world := w } := by
  simp [GDeflate, CallbackInfo.Length, h]

theorem GDeflate_wrong_kind {σ : Type} (lib : Libdeflate σ) (info : CallbackInfo) (w : σ)
    (h2 : info.length = 2)
    (h : (info.get 0).IsArrayBuffer = false ∨ (info.get 1).IsArrayBuffer = false) :
    GDeflate lib info w =
      { exception := some (TypeError.New "Arguments must be array buffers"),
        value := Value.number (-1), trace := [], world := w } := by
  have hc : (!(info.get 0).IsArrayBuffer || !(info.get 1).IsArrayBuffer) = true := by
    rcases h with h | h <;> simp [h]
  simp only [GDeflate, CallbackInfo.Length, h2, ne_eq, not_true_eq_false, if_false, hc, if_true,
    Value.From, Number.New]

theorem passesValidation_iff (info : CallbackInfo) :
    passesValidation info = true ↔
      ∃ input output, info = [Value.arrayBuffer input, Value.arrayBuffer output] := by
  constructor
  · intro h
    simp only [passesValidation, Bool.and_eq_true, beq_iff_eq] at h
    obtain ⟨⟨hlen, h0⟩, h1⟩ := h
    match info, hlen with
    | [x, y], _ =>
      cases x <;> simp [CallbackInfo.get, Value.IsArrayBuffer] at h0
      cases y <;> simp [CallbackInfo.get, Value.IsArrayBuffer] at h1
      exact ⟨_, _, rfl⟩
  · rintro ⟨a, b, rfl⟩
    rfl

/-- A complete run on the list-backed library: allocate, decompress once, release,
and hand back the status; the world ends with no live decompressor. -/
theorem GDeflate_listDeflate_run :
    (GDeflate listDeflate
        [Value.arrayBuffer { Data := 4096, ByteLength := 8 },
         Value.arrayBuffer { Data := 8192, ByteLength := 16 }] []).trace =
      [DeflateCall.alloc 1,
       DeflateCall.decompress 1 [{ data := 4096, nbytes := 8 }] 1 8192 16 0 0,
       DeflateCall.free 1] ∧
    (GDeflate listDeflate
        [Value.arrayBuffer { Data := 4096, ByteLength := 8 },
         Value.arrayBuffer { Data := 8192, ByteLength := 16 }] []).value = Value.number 0 ∧
    (GDeflate listDeflate
        [Value.arrayBuffer { Data := 4096, ByteLength := 8 },
         Value.arrayBuffer { Data := 8192, ByteLength := 16 }] []).world = [] := by
  decide

/-! ## The hash callback -/

/-- C1: called with exactly one argument that is a string `s`, `City64` leaves no
exception pending and returns the big integer whose value is exactly
`CityHash64 (utf8 s) (length (utf8 s))`, an unsigned 64-bit number (nothing is
lost in the conversion); the library is called once, on those bytes; for the
empty string the value is the hash of the zero-length byte sequence; and two
strings with the same UTF-8 bytes give the same outcome. -/
theorem City64_string_returns_hash (lib : CityLib) (s t : String) :
    (City64 lib [Value.string s]).exception = none ∧
    (City64 lib [Value.string s]).value =
      Value.bigint (Int.ofNat (CityHash64 lib (Utf8Value s) (Utf8Value s).length)) ∧
    CityHash64 lib (Utf8Value s) (Utf8Value s).length < 2 ^ 64 ∧
    (City64 lib [Value.string s]).trace =
      [CityCall.CityHash64 (c_str (Utf8Value s)) (Utf8Value s).length] ∧
    (City64 lib [Value.string ""]).value = Value.bigint (Int.ofNat (CityHash64 lib [] 0)) ∧
    (Utf8Value s = Utf8Value t → City64 lib [Value.string s] = City64 lib [Value.string t]) := by
  refine ⟨?_, ?_, CityHash64_lt _ _ _, ?_, ?_, ?_⟩
  · rw [City64_of_string]
  · rw [City64_of_string]
  · rw [City64_of_string]; rfl
  · rw [City64_of_string, Utf8Value_empty]; rfl
  · intro h
    rw [City64_of_string, City64_of_string, h]

/-- C1, at the text `hello` with the byte-summing hash: the value is 532. -/
theorem City64_string_returns_hash_witness :
    Utf8Value "hello" = Utf8Value "hello" ∧
    (City64 sumCity [Value.string "hello"]).value = Value.bigint 532 ∧
    City64 sumCity [Value.string "hello"] = City64 sumCity [Value.string "hello"] :=
  ⟨rfl, (City64_string_returns_hash sumCity "hello" "hello").2.1.trans (by decide),
    (City64_string_returns_hash sumCity "hello" "hello").2.2.2.2.2 rfl⟩

/-- C4 as stated fails: with no argument at all the error `City64` raises is a
`TypeError`; it has no error kind distinct from `TypeError`. -/
theorem City64_arity_error_is_TypeError :
    ¬ ∃ e, (City64 sumCity []).exception = some e ∧ e.kind ≠ ErrorKind.TypeError := by
  rintro ⟨e, he, hk⟩
  have h : (City64 sumCity []).exception = some (TypeError.New "Wrong number of arguments") := rfl
  rw [h] at he
  cases he
  exact hk rfl

/-- C4, amended: for every argument list whose length is not 1, `City64` raises a
`TypeError` with the message "Wrong number of arguments", returns null, and does
not call `CityHash64`. -/
theorem City64_wrong_count (lib : CityLib) (info : CallbackInfo) (h : info.length ≠ 1) :
    City64 lib info =
      { exception := some { kind := ErrorKind.TypeError, message := "Wrong number of arguments" },
        value := Value.null,
        trace := [] } := by
  simp [City64, CallbackInfo.Length, h, TypeError.New]

/-- C4, amended, at two arguments. -/
theorem City64_wrong_count_witness :
    [Value.string "a", Value.string "b"].length ≠ 1 ∧
    City64 sumCity [Value.string "a", Value.string "b"] =
      { exception := some { kind := ErrorKind.TypeError, message := "Wrong number of arguments" },
        value := Value.null,
        trace := [] } :=
  ⟨by decide, City64_wrong_count sumCity [Value.string "a", Value.string "b"] (by decide)⟩

/-- C7: called with exactly one argument that is not a string, `City64` raises a
`TypeError` and does not call `CityHash64`. -/
theorem City64_non_string (lib : CityLib) (v : Value) (h : v.IsString = false) :
    (City64 lib [v]).exception = some { kind := ErrorKind.TypeError, message := "Wrong arguments" } ∧
    (City64 lib [v]).trace = [] := by
  simp [City64, CallbackInfo.Length, CallbackInfo.get, h, TypeError.New]

/-- C7, at the number 42. -/
theorem City64_non_string_witness :
    (Value.number 42).IsString = false ∧
    (City64 sumCity [Value.number 42]).exception =
      some { kind := ErrorKind.TypeError, message := "Wrong arguments" } ∧
    (City64 sumCity [Value.number 42]).trace = [] :=
  ⟨rfl, City64_non_string sumCity (Value.number 42) rfl⟩

/-! ## The decompression callback -/

/-- C2: called with exactly two array buffers, `GDeflate` leaves no exception
pending and returns as a number, unchanged, the status of its one invocation of
`libdeflate_gdeflate_decompress`: one page (page count 1) whose data is the base
address of the input buffer and whose size is its full byte length, the base
address and the full byte length of the output buffer as the output capacity,
and a null actual-size pointer.  Nothing depends on the status being zero. -/
theorem GDeflate_returns_codec_status {σ : Type} (lib : Libdeflate σ)
    (input output : ArrayBuffer) (w : σ) :
    (GDeflate lib [Value.arrayBuffer input, Value.arrayBuffer output] w).exception = none ∧
    (GDeflate lib [Value.arrayBuffer input, Value.arrayBuffer output] w).value =
      Value.number
        (lib.libdeflate_gdeflate_decompress (lib.libdeflate_alloc_gdeflate_decompressor w).1
          [{ data := input.Data, nbytes := input.ByteLength }] 1 output.Data output.ByteLength
          nullptr (lib.libdeflate_alloc_gdeflate_decompressor w).2).1 ∧
    (GDeflate lib [Value.arrayBuffer input, Value.arrayBuffer output] w).trace.filter
        DeflateCall.isCodec =
      [DeflateCall.decompress (lib.libdeflate_alloc_gdeflate_decompressor w).1
        [{ data := input.Data, nbytes := input.ByteLength }] 1 output.Data output.ByteLength
        nullptr
        (lib.libdeflate_gdeflate_decompress (lib.libdeflate_alloc_gdeflate_decompressor w).1
          [{ data := input.Data, nbytes := input.ByteLength }] 1 output.Data output.ByteLength
          nullptr (lib.libdeflate_alloc_gdeflate_decompressor w).2).1] := by
  refine ⟨?_, ?_, ?_⟩
  · rw [GDeflate_of_buffers]
  · rw [GDeflate_of_buffers]; rfl
  · rw [GDeflate_trace_of_buffers]
    by_cases h : (lib.libdeflate_alloc_gdeflate_decompressor w).1 = nullptr
    · simp [h, List.filter, DeflateCall.isCodec, pageOf]
    · simp [h, List.filter, DeflateCall.isCodec, pageOf]

/-- C5 as stated fails: with a single array buffer the error `GDeflate` raises is
a `TypeError`; it has no error kind distinct from `TypeError`. -/
theorem GDeflate_arity_error_is_TypeError :
    ¬ ∃ e, (GDeflate listDeflate [Value.arrayBuffer { Data := 4096, ByteLength := 8 }]
        []).exception = some e ∧ e.kind ≠ ErrorKind.TypeError := by
  rintro ⟨e, he, hk⟩
  rw [GDeflate_wrong_count listDeflate _ [] (by decide)] at he
  cases he
  exact hk rfl

/-- C5, amended: for every argument list whose length is not 2, `GDeflate` raises
a `TypeError` with the message "Wrong number of arguments"; no decompressor is
allocated, the codec is not invoked, and the native world is left as it was. -/
theorem GDeflate_wrong_count_raises {σ : Type} (lib : Libdeflate σ) (info : CallbackInfo)
    (w : σ) (h : info.length ≠ 2) :
    (GDeflate lib info w).exception =
      some { kind := ErrorKind.TypeError, message := "Wrong number of arguments" } ∧
    (GDeflate lib info w).trace = [] ∧
    (GDeflate lib info w).world = w := by
  rw [GDeflate_wrong_count lib info w h]
  exact ⟨rfl, rfl, rfl⟩

/-- C5, amended, at a single array buffer. -/
theorem GDeflate_wrong_count_raises_witness :
    [Value.arrayBuffer { Data := 4096, ByteLength := 8 }].length ≠ 2 ∧
    (GDeflate listDeflate [Value.arrayBuffer { Data := 4096, ByteLength := 8 }] []).exception =
      some { kind := ErrorKind.TypeError, message := "Wrong number of arguments" } ∧
    (GDeflate listDeflate [Value.arrayBuffer { Data := 4096, ByteLength := 8 }] []).trace = [] ∧
    (GDeflate listDeflate [Value.arrayBuffer { Data := 4096, ByteLength := 8 }] []).world = [] :=
  ⟨by decide,
    GDeflate_wrong_count_raises listDeflate [Value.arrayBuffer { Data := 4096, ByteLength := 8 }]
      [] (by decide)⟩

/-- C6: called with exactly two arguments of which at least one is not an array
buffer, `GDeflate` raises a `TypeError` before touching anything native: it makes
no libdeflate call (no allocation, no codec invocation, no release) and leaves the
native world, memory included, as it was. -/
theorem GDeflate_non_buffer_raises {σ : Type} (lib : Libdeflate σ) (a b : Value) (w : σ)
    (h : a.IsArrayBuffer = false ∨ b.IsArrayBuffer = false) :
    (GDeflate lib [a, b] w).exception =
      some { kind := ErrorKind.TypeError, message := "Arguments must be array buffers" } ∧
    (GDeflate lib [a, b] w).trace = [] ∧
    (GDeflate lib [a, b] w).world = w := by
  rw [GDeflate_wrong_kind lib [a, b] w rfl h]
  exact ⟨rfl, rfl, rfl⟩

/-- C6, at an array buffer followed by a string. -/
theorem GDeflate_non_buffer_raises_witness :
    ((Value.arrayBuffer { Data := 4096, ByteLength := 8 }).IsArrayBuffer = false ∨
      (Value.string "out").IsArrayBuffer = false) ∧
    (GDeflate listDeflate
        [Value.arrayBuffer { Data := 4096, ByteLength := 8 }, Value.string "out"] []).exception =
      some { kind := ErrorKind.TypeError, message := "Arguments must be array buffers" } ∧
    (GDeflate listDeflate
        [Value.arrayBuffer { Data := 4096, ByteLength := 8 }, Value.string "out"] []).trace = [] ∧
    (GDeflate listDeflate
        [Value.arrayBuffer { Data := 4096, ByteLength := 8 }, Value.string "out"] []).world = [] :=
  ⟨Or.inr rfl,
    GDeflate_non_buffer_raises listDeflate (Value.arrayBuffer { Data := 4096, ByteLength := 8 })
      (Value.string "out") [] (Or.inr rfl)⟩

/-- C8 as stated fails: when the allocator answers the null pointer, a call that
passes validation does not call `libdeflate_free_gdeflate_decompressor` exactly
once; it does not call it at all. -/
theorem GDeflate_null_alloc_not_released_once :
    ¬ (passesValidation
          [Value.arrayBuffer { Data := 4096, ByteLength := 8 },
           Value.arrayBuffer { Data := 8192, ByteLength := 8 }] = true →
        ((GDeflate failingAllocDeflate
          [Value.arrayBuffer { Data := 4096, ByteLength := 8 },
           Value.arrayBuffer { Data := 8192, ByteLength := 8 }] ()).trace.filter
            DeflateCall.isFree).length = 1) := by
  intro h
  have h1 := h rfl
  rw [GDeflate_trace_of_buffers] at h1
  simp [failingAllocDeflate, List.filter, DeflateCall.isFree] at h1

/-- C8, amended: a call that passes validation calls the allocator exactly once,
hands the pointer it got to its single codec invocation, and, when that pointer is
not null, releases it exactly once through
`libdeflate_free_gdeflate_decompressor`, after the codec invocation and as the
last native call, whatever the status; when the pointer is null nothing is
released.  A call that fails validation makes no native call.  In every case the
decompressors acquired by the call are exactly the ones it released. -/
theorem GDeflate_decompressor_balanced {σ : Type} (lib : Libdeflate σ) (info : CallbackInfo)
    (w : σ) :
    (GDeflate lib info w).trace =
      (if passesValidation info = true then
        [DeflateCall.alloc (lib.libdeflate_alloc_gdeflate_decompressor w).1,
         DeflateCall.decompress (lib.libdeflate_alloc_gdeflate_decompressor w).1
           [pageOf (info.get 0).AsArrayBuffer] 1
           (info.get 1).AsArrayBuffer.Data (info.get 1).AsArrayBuffer.ByteLength nullptr
           (lib.libdeflate_gdeflate_decompress (lib.libdeflate_alloc_gdeflate_decompressor w).1
             [pageOf (info.get 0).AsArrayBuffer] 1
             (info.get 1).AsArrayBuffer.Data (info.get 1).AsArrayBuffer.ByteLength nullptr
             (lib.libdeflate_alloc_gdeflate_decompressor w).2).1] ++
        (if (lib.libdeflate_alloc_gdeflate_decompressor w).1 ≠ nullptr then
          [DeflateCall.free (lib.libdeflate_alloc_gdeflate_decompressor w).1] else [])
      else []) ∧
    acquired (GDeflate lib info w).trace = released (GDeflate lib info w).trace := by
  by_cases hv : passesValidation info = true
  · obtain ⟨input, output, rfl⟩ := (passesValidation_iff info).mp hv
    rw [GDeflate_trace_of_buffers, if_pos hv]
    refine ⟨rfl, ?_⟩
    by_cases h : (lib.libdeflate_alloc_gdeflate_decompressor w).1 = nullptr
    · simp [h, acquired, released]
    · simp [h, acquired, released]
  · rw [if_neg hv]
    have ht : (GDeflate lib info w).trace = [] := by
      by_cases h2 : info.length = 2
      · have hk : (info.get 0).IsArrayBuffer = false ∨ (info.get 1).IsArrayBuffer = false := by
          by_contra hc
          apply hv
          simp only [not_or, Bool.not_eq_false] at hc
          simp [passesValidation, h2, hc.1, hc.2]
        rw [GDeflate_wrong_kind lib info w h2 hk]
      · rw [GDeflate_wrong_count lib info w h2]
    rw [ht]
    exact ⟨rfl, rfl⟩

/-- C9: for every pair of array buffers, if the allocator answers the null
pointer then `GDeflate` still invokes the codec exactly once, with the null
pointer as its decompressor, returns the status of that invocation with no
exception pending, and never calls `libdeflate_free_gdeflate_decompressor`. -/
theorem GDeflate_null_decompressor_unchecked {σ : Type} (lib : Libdeflate σ)
    (input output : ArrayBuffer) (w : σ)
    (h : (lib.libdeflate_alloc_gdeflate_decompressor w).1 = nullptr) :
    (GDeflate lib [Value.arrayBuffer input, Value.arrayBuffer output] w).trace =
      [DeflateCall.alloc nullptr,
       DeflateCall.decompress nullptr [pageOf input] 1 output.Data output.ByteLength nullptr
         (lib.libdeflate_gdeflate_decompress nullptr [pageOf input] 1 output.Data
           output.ByteLength nullptr (lib.libdeflate_alloc_gdeflate_decompressor w).2).1] ∧
    (GDeflate lib [Value.arrayBuffer input, Value.arrayBuffer output] w).value =
      Value.number
        (lib.libdeflate_gdeflate_decompress nullptr [pageOf input] 1 output.Data
          output.ByteLength nullptr (lib.libdeflate_alloc_gdeflate_decompressor w).2).1 ∧
    (GDeflate lib [Value.arrayBuffer input, Value.arrayBuffer output] w).exception = none ∧
    (GDeflate lib [Value.arrayBuffer input, Value.arrayBuffer output] w).trace.filter
      DeflateCall.isFree = [] := by
  have ht := GDeflate_trace_of_buffers lib input output w
  rw [h] at ht
  simp only [ne_eq, not_true_eq_false, if_false, List.append_nil] at ht
  refine ⟨ht, ?_, ?_, ?_⟩
  · rw [GDeflate_of_buffers]
    simp only [h]
  · rw [GDeflate_of_buffers]
  · rw [ht]
    rfl

/-- C9, with the allocator that is out of memory: the codec is reached with the
null pointer and its status 1 is returned. -/
theorem GDeflate_null_decompressor_unchecked_witness :
    (failingAllocDeflate.libdeflate_alloc_gdeflate_decompressor ()).1 = nullptr ∧
    (GDeflate failingAllocDeflate
        [Value.arrayBuffer { Data := 4096, ByteLength := 8 },
         Value.arrayBuffer { Data := 8192, ByteLength := 16 }] ()).trace =
      [DeflateCall.alloc 0,
       DeflateCall.decompress 0 [{ data := 4096, nbytes := 8 }] 1 8192 16 0 1] ∧
    (GDeflate failingAllocDeflate
        [Value.arrayBuffer { Data := 4096, ByteLength := 8 },
         Value.arrayBuffer { Data := 8192, ByteLength := 16 }] ()).value = Value.number 1 :=
  ⟨rfl,
    (GDeflate_null_decompressor_unchecked failingAllocDeflate { Data := 4096, ByteLength := 8 }
      { Data := 8192, ByteLength := 16 } () rfl).1,
    (GDeflate_null_decompressor_unchecked failingAllocDeflate { Data := 4096, ByteLength := 8 }
      { Data := 8192, ByteLength := 16 } () rfl).2.1⟩

/-! ## Values returned next to a raised error -/

/-- C10: the value handed back together with a validation error.  `City64`
returns null both when the argument count is not 1 and when its single argument
is not a string; `GDeflate` returns null when the argument count is not 2 and the
number -1 when the count is 2 and some argument is not an array buffer.  Hence
`GDeflate` returns the number -1 without having invoked the codec if and only if
it has exactly two arguments and at least one of them is not an array buffer. -/
theorem validation_error_return_values {σ : Type} (city : CityLib) (lib : Libdeflate σ)
    (info : CallbackInfo) (w : σ) :
    (info.length ≠ 1 →
      (City64 city info).exception.isSome = true ∧ (City64 city info).value = Value.null) ∧
    (info.length = 1 → (info.get 0).IsString = false →
      (City64 city info).exception.isSome = true ∧ (City64 city info).value = Value.null) ∧
    (info.length ≠ 2 →
      (GDeflate lib info w).exception.isSome = true ∧ (GDeflate lib info w).value = Value.null) ∧
    (info.length = 2 →
      (info.get 0).IsArrayBuffer = false ∨ (info.get 1).IsArrayBuffer = false →
      (GDeflate lib info w).exception.isSome = true ∧
        (GDeflate lib info w).value = Value.number (-1)) ∧
    (((GDeflate lib info w).value = Value.number (-1) ∧
        (GDeflate lib info w).trace.filter DeflateCall.isCodec = []) ↔
      (info.length = 2 ∧
        ((info.get 0).IsArrayBuffer = false ∨ (info.get 1).IsArrayBuffer = false))) := by
  refine ⟨?_, ?_, ?_, ?_, ?_⟩
  · intro h
    simp [City64, CallbackInfo.Length, h]
  · intro h1 h
    simp [City64, CallbackInfo.Length, h1, h]
  · intro h
    rw [GDeflate_wrong_count lib info w h]
    exact ⟨rfl, rfl⟩
  · intro h2 h
    rw [GDeflate_wrong_kind lib info w h2 h]
    exact ⟨rfl, rfl⟩
  · constructor
    · rintro ⟨hval, htr⟩
      by_cases h2 : info.length = 2
      · refine ⟨h2, ?_⟩
        by_contra hc
        simp only [not_or, Bool.not_eq_false] at hc
        have hv : passesValidation info = true := by
          simp [passesValidation, h2, hc.1, hc.2]
        obtain ⟨input, output, rfl⟩ := (passesValidation_iff info).mp hv
        rw [GDeflate_trace_of_buffers] at htr
        simp [List.filter, DeflateCall.isCodec] at htr
      · rw [GDeflate_wrong_count lib info w h2] at hval
        cases hval
    · rintro ⟨h2, h⟩
      rw [GDeflate_wrong_kind lib info w h2 h]
      exact ⟨rfl, rfl⟩

/-- C10, on concrete argument lists: no argument and the number 42 for `City64`;
a single buffer and a buffer followed by the number 42 for `GDeflate`. -/
theorem validation_error_return_values_witness :
    (City64 sumCity []).value = Value.null ∧
    (City64 sumCity [Value.number 42]).value = Value.null ∧
    (GDeflate listDeflate [Value.arrayBuffer { Data := 4096, ByteLength := 8 }] []).value =
      Value.null ∧
    (GDeflate listDeflate
      [Value.arrayBuffer { Data := 4096, ByteLength := 8 }, Value.number 42] []).value =
      Value.number (-1) :=
  ⟨((validation_error_return_values sumCity listDeflate [] []).1 (by decide)).2,
    ((validation_error_return_values sumCity listDeflate [Value.number 42] []).2.1
      rfl rfl).2,
    ((validation_error_return_values sumCity listDeflate
      [Value.arrayBuffer { Data := 4096, ByteLength := 8 }] []).2.2.1 (by decide)).2,
    ((validation_error_return_values sumCity listDeflate
      [Value.arrayBuffer { Data := 4096, ByteLength := 8 }, Value.number 42] []).2.2.2.1
      rfl (Or.inr rfl)).2⟩
